import Mathlib

set_option autoImplicit false

namespace InvoiceChatBot

/-! ## Data model

Shallow embedding of the upload path of the Invoice ChatBot.  The only
source file available is `src/app/routers/upload.py`; the modules it
imports (`app.core.rag_pipeline`, `app.core.session_manager`,
`app.core.config`, `app.models.schemas`) are absent, so their behaviour
is either left abstract (arbitrary stage functions) or modelled from the
spec, as noted on each definition. -/

/-- A text record extracted from an uploaded file (spec §3: Document). -/
structure Document where
  source_filename : String
  text : String
  deriving Repr, DecidableEq

/-- Modelled from the spec: the vector store returned by
`rag_pipeline.create_vector_store` (app/core/rag_pipeline.py is not in src/).
Per spec §3 an Index is an opaque searchable structure built from the ordered
document sequence; we record that sequence. -/
structure VectorStore where
  docs : List Document
  deriving Repr, DecidableEq

/-- The retriever produced by
`vector_store.as_retriever(search_kwargs={"k": 3})` at upload.py line 69:
the store together with the retrieval width `k`. -/
structure Retriever where
  store : VectorStore
  k : Nat
  deriving Repr, DecidableEq

/-- Modelled from the spec: the agent returned by `rag_pipeline.create_agent`
(app/core/rag_pipeline.py is not in src/).  Per spec §3/§4.3 an Agent is an
opaque callable bound to exactly one retriever at construction time. -/
structure Agent where
  retriever : Retriever
  deriving Repr, DecidableEq

/-- A session (spec §3): an opaque id together with the index and agent it
exclusively owns. -/
structure Session where
  id : String
  index : VectorStore
  agent : Agent
  deriving Repr, DecidableEq

/-- Modelled from the spec: the id generator of
`session_manager.create_session` (app/core/session_manager.py is not in
src/).  Spec §4.4 allows "a cryptographically strong random source or
monotonically-unique generator"; we model the latter, the nth id being a
string of n+1 marker characters (distinct ids for distinct n). -/
def mkSessionId (n : Nat) : String :=
  String.mk (List.replicate (n + 1) 's')

/-- Modelled from the spec: the state of the process-wide
`app.core.session_manager.session_manager` (not in src/): a mapping from
session id to Session, initialized empty at process start (spec §4.4),
with the monotone generator's counter.  Newest entries are at the front. -/
structure SessionManagerState where
  sessions : List (String × Session)
  counter : Nat
  deriving Repr, DecidableEq

/-- The empty session registry the process starts with (spec §4.4). -/
def SessionManagerState.initial : SessionManagerState := ⟨[], 0⟩

/-- Modelled from the spec: `session_manager.create_session(vector_store,
agent)` — generate a fresh unique id, store the (index, agent) pair under
it, return the id (spec §4.4); the insert is atomic per the concurrency
contract of spec §5. -/
def create_session (st : SessionManagerState) (index : VectorStore)
    (agent : Agent) : String × SessionManagerState :=
  (mkSessionId st.counter,
    ⟨(mkSessionId st.counter,
        ⟨mkSessionId st.counter, index, agent⟩) :: st.sessions,
      st.counter + 1⟩)

/-- Modelled from the spec: `session_manager.get_session(session_id)` — pure
lookup, no mutation (spec §4.4). -/
def get_session (st : SessionManagerState) (sid : String) : Option Session :=
  (st.sessions.find? fun p => p.1 == sid).map Prod.snd

/-! ## Python exceptions and HTTP errors -/

/-- The Python exceptions distinguished by the `except` clauses of
`upload_invoices` (upload.py lines 83–86): a `ValueError`, a
`fastapi.HTTPException` (which itself derives from `Exception`), or any
other `Exception`. -/
inductive Exc where
  | valueError (msg : String)
  | httpException (status_code : Nat) (detail : String)
  | otherError (msg : String)
  deriving Repr, DecidableEq

/-- Python `str(e)`: a `ValueError` or generic exception prints its message;
starlette's `HTTPException.__str__` prints `"{status_code}: {detail}"`. -/
def Exc.str : Exc → String
  | .valueError m => m
  | .httpException s d => toString s ++ ": " ++ d
  | .otherError m => m

/-- The payload of a raised `fastapi.HTTPException` as it reaches the
transport layer. -/
structure HTTPError where
  status_code : Nat
  detail : String
  deriving Repr, DecidableEq

/-- `app.models.schemas.UploadResponse` (schemas.py is not in src/; the
fields are exactly those constructed at upload.py lines 77–81 and listed in
spec §6). -/
structure UploadResponse where
  session_id : String
  message : String
  files_processed : Nat
  deriving Repr, DecidableEq

/-- Modelled from the spec: `app.core.config.settings` (config.py is not in
src/): the configured allowed extensions and maximum byte size (spec §6). -/
structure Settings where
  allowed_file_types : List String
  max_file_size : Nat
  deriving Repr

instance {ε α : Type} [DecidableEq ε] [DecidableEq α] :
    DecidableEq (Except ε α) := fun a b =>
  match a, b with
  | .error x, .error y =>
    if h : x = y then isTrue (h ▸ rfl)
    else isFalse (fun hc => h (Except.error.inj hc))
  | .error _, .ok _ => isFalse (fun hc => Except.noConfusion hc)
  | .ok _, .error _ => isFalse (fun hc => Except.noConfusion hc)
  | .ok x, .ok y =>
    if h : x = y then isTrue (h ▸ rfl)
    else isFalse (fun hc => h (Except.ok.inj hc))

/-- An inbound `fastapi.UploadFile`: the filename plus the outcome of
`await file.read()` (raw bytes modelled as a `String`; `.error msg` models
`read` raising an exception whose message is `msg`). -/
structure UploadFile where
  filename : String
  readResult : Except String String
  deriving Repr, DecidableEq

/-! ## The validation loop (upload.py lines 34–58) -/

/-- Executable model of Python `str.endswith`. -/
def pyEndsWith (s suffix : String) : Bool :=
  suffix.data.isSuffixOf s.data

/-- Executable model of Python `str.lower`. -/
def pyLower (s : String) : String :=
  String.mk (s.data.map Char.toLower)

/-- The extension check at upload.py line 37:
`any(file.filename.lower().endswith(f".{ext}") for ext in
settings.allowed_file_types)`. -/
def extensionAllowed (st : Settings) (filename : String) : Bool :=
  st.allowed_file_types.any fun ext => pyEndsWith (pyLower filename) ("." ++ ext)

/-- Detail string of the unsupported-format error (upload.py lines 38–41). -/
def unsupportedFormatDetail (st : Settings) (filename : String) : String :=
  "File " ++ filename ++ " has unsupported format. Allowed: "
    ++ toString st.allowed_file_types

/-- Detail string of the size-limit error (upload.py lines 48–51). -/
def oversizeDetail (st : Settings) (filename : String) : String :=
  "File " ++ filename ++ " exceeds maximum size of "
    ++ toString st.max_file_size ++ " bytes"

/-- Detail string of the wrapped read error (upload.py line 58). -/
def readErrorDetail (filename msg : String) : String :=
  "Error reading file " ++ filename ++ ": " ++ msg

/-- One iteration of the validation loop (upload.py lines 35–58): the
extension check, then `await file.read()` and the size check inside a
`try`.  The size-limit `HTTPException(400)` is raised inside that `try`, so
it is caught by `except Exception as e` and re-wrapped as the 400
`"Error reading file {filename}: {str(e)}"`, as is any read failure. -/
def validateFile (st : Settings) (f : UploadFile) :
    Except HTTPError (String × String) :=
  if extensionAllowed st f.filename then
    match f.readResult with
    | .error msg => .error ⟨400, readErrorDetail f.filename msg⟩
    | .ok content =>
      if content.length > st.max_file_size then
        .error ⟨400, readErrorDetail f.filename
          (Exc.str (.httpException 400 (oversizeDetail st f.filename)))⟩
      else
        .ok (f.filename, content)
  else
    .error ⟨400, unsupportedFormatDetail st f.filename⟩

/-- The whole validation loop: files are validated in order and the first
failure raises, so no later file is read or inspected. -/
def validateFiles (st : Settings) : List UploadFile →
    Except HTTPError (List (String × String))
  | [] => .ok []
  | f :: fs =>
    match validateFile st f with
    | .error e => .error e
    | .ok p =>
      match validateFiles st fs with
      | .error e => .error e
      | .ok ps => .ok (p :: ps)

/-! ## The pipeline stages and the `try` block (upload.py lines 60–86) -/

/-- The stage functions `upload_invoices` calls.
`load_documents_from_files`, `create_vector_store` and `create_agent` live
in app/core/rag_pipeline.py and `create_session` in
app/core/session_manager.py, none of which is in src/; the router is
verified for arbitrary behaviours of these stages, each call either
returning a value or raising an exception.  A raising `create_session`
leaves the registry unchanged (atomic insert, spec §5). -/
structure Pipeline where
  load_documents_from_files :
    List (String × String) → Except Exc (List Document)
  create_vector_store : List Document → Except Exc VectorStore
  create_agent : Retriever → Except Exc Agent
  create_session : SessionManagerState → VectorStore → Agent →
    Except Exc (String × SessionManagerState)

/-- Observable record of a pipeline stage invoked by `upload_invoices`,
with the argument it was invoked on. -/
inductive Stage where
  | loadDocuments (files : List (String × String))
  | createVectorStore (docs : List Document)
  | createAgent (r : Retriever)
  | createSession (index : VectorStore) (agent : Agent)
  deriving Repr, DecidableEq

/-- The full observable outcome of one call to `upload_invoices`: the HTTP
response (or raised `HTTPException`), the resulting session-manager state,
and the stages that were invoked, in order. -/
structure RouterOutcome where
  response : Except HTTPError UploadResponse
  state : SessionManagerState
  trace : List Stage
  deriving Repr, DecidableEq

/-- The `except` clauses at upload.py lines 83–86: a `ValueError` becomes a
400 carrying the exception's message; every other exception — including an
`HTTPException` raised inside the `try` block, since `HTTPException`
derives from `Exception` — becomes the 500
`"Internal server error: {str(e)}"`. -/
def handleExc : Exc → HTTPError
  | .valueError m => ⟨400, m⟩
  | e => ⟨500, "Internal server error: " ++ e.str⟩

/-- Detail of the empty-documents `HTTPException` (upload.py line 65). -/
def noValidDocumentsDetail : String :=
  "No valid documents could be extracted from the uploaded files"

/-- Success message of the response (upload.py line 79). -/
def successMessage : String := "Files uploaded and processed successfully"

/-- `vector_store.as_retriever(search_kwargs={"k": 3})` at upload.py
line 69: wraps the store with the hard-coded retrieval width 3. -/
def mkRetriever (vs : VectorStore) : Retriever := ⟨vs, 3⟩

/-- The `try` block of `upload_invoices` (upload.py lines 60–86): load the
documents, raise on an empty result (a raise that `except Exception`
immediately recaptures), build the vector store, fix the retriever at
`k = 3`, build the agent, create the session, assemble the response. -/
def tryBlock (pl : Pipeline) (sm : SessionManagerState)
    (processed_files : List (String × String)) : RouterOutcome :=
  match pl.load_documents_from_files processed_files with
  | .error e =>
    ⟨.error (handleExc e), sm, [.loadDocuments processed_files]⟩
  | .ok documents =>
    if documents.isEmpty then
      ⟨.error (handleExc (.httpException 400 noValidDocumentsDetail)), sm,
        [.loadDocuments processed_files]⟩
    else
      match pl.create_vector_store documents with
      | .error e =>
        ⟨.error (handleExc e), sm,
          [.loadDocuments processed_files, .createVectorStore documents]⟩
      | .ok vector_store =>
        match pl.create_agent (mkRetriever vector_store) with
        | .error e =>
          ⟨.error (handleExc e), sm,
            [.loadDocuments processed_files, .createVectorStore documents,
              .createAgent (mkRetriever vector_store)]⟩
        | .ok agent =>
          match pl.create_session sm vector_store agent with
          | .error e =>
            ⟨.error (handleExc e), sm,
              [.loadDocuments processed_files, .createVectorStore documents,
                .createAgent (mkRetriever vector_store),
                .createSession vector_store agent]⟩
          | .ok (session_id, sm') =>
            ⟨.ok ⟨session_id, successMessage, processed_files.length⟩, sm',
              [.loadDocuments processed_files, .createVectorStore documents,
                .createAgent (mkRetriever vector_store),
                .createSession vector_store agent]⟩

/-- `upload_invoices` (src/app/routers/upload.py lines 21–86): the
empty-batch check, the per-file validation loop, then the `try` block of
pipeline stages. -/
def upload_invoices (st : Settings) (pl : Pipeline)
    (sm : SessionManagerState) (files : List UploadFile) : RouterOutcome :=
  if files.isEmpty then
    ⟨.error ⟨400, "No files provided"⟩, sm, []⟩
  else
    match validateFiles st files with
    | .error e => ⟨.error e, sm, []⟩
    | .ok processed_files => tryBlock pl sm processed_files

/-! ## A concrete spec-modelled pipeline

Used to run the router end to end on concrete inputs.  The real
implementations live in app/core/rag_pipeline.py and
app/core/session_manager.py, which are not in src/, so they are modelled
from the spec. -/

/-- Splits a string at newline characters (auxiliary). -/
def splitLinesAux : List Char → List Char → List String
  | [], acc => [String.mk acc.reverse]
  | c :: cs, acc =>
    if c = '\n' then String.mk acc.reverse :: splitLinesAux cs []
    else splitLinesAux cs (c :: acc)

/-- Splits a string into its newline-separated lines. -/
def splitLines (s : String) : List String :=
  splitLinesAux s.data []

/-- Modelled from the spec: the CSV extractor inside
`rag_pipeline.load_documents_from_files` (app/core/rag_pipeline.py is not in
src/).  Per spec §2/§3/§4.1 one input file yields zero or more documents; a
well-formed CSV yields one document per data row, the header line excluded
and blank lines contributing nothing. -/
def csvExtract (filename content : String) : List Document :=
  match splitLines content with
  | [] => []
  | _header :: rows =>
    (rows.filter fun r => r ≠ "").map fun r => ⟨filename, r⟩

/-- Modelled from the spec: the JSON extractor inside
`rag_pipeline.load_documents_from_files` (not in src/).  Per spec §2/§4.1 an
empty or unparsable input is skipped, contributing zero documents; a
nonempty well-formed JSON invoice file contributes its records, modelled at
spec granularity as one document carrying the file's text. -/
def jsonExtract (filename content : String) : List Document :=
  if content = "" then [] else [⟨filename, content⟩]

/-- Modelled from the spec: `rag_pipeline.load_documents_from_files` (not in
src/): for each file, dispatch on the filename extension to a
format-specific extractor; an unrecognized extension yields zero documents
for that file rather than failing the batch (spec §4.1). -/
def load_documents_spec (files : List (String × String)) : List Document :=
  (files.map fun fc =>
    if pyEndsWith (pyLower fc.1) ".csv" then csvExtract fc.1 fc.2
    else if pyEndsWith (pyLower fc.1) ".json" then jsonExtract fc.1 fc.2
    else []).flatten

/-- Modelled from the spec: `rag_pipeline.create_vector_store` (not in src/)
builds an Index over the ordered document sequence (spec §4.2); building
from zero documents fails with an InvalidInput error, raised in this
codebase's user-error convention as a `ValueError`. -/
def create_vector_store_spec (docs : List Document) : Except Exc VectorStore :=
  if docs.isEmpty then .error (.valueError "InvalidInput: empty document sequence")
  else .ok ⟨docs⟩

/-- Modelled from the spec: `rag_pipeline.create_agent` (not in src/) binds
the retriever to a question-answering agent (spec §4.3). -/
def create_agent_spec (r : Retriever) : Except Exc Agent :=
  .ok ⟨r⟩

/-- The session-manager-backed `create_session` in the shape the router
consumes it: an atomic, non-raising insert (spec §4.4/§5). -/
def create_session_spec (sm : SessionManagerState) (vs : VectorStore)
    (a : Agent) : Except Exc (String × SessionManagerState) :=
  .ok (create_session sm vs a)

/-- The concrete spec-modelled pipeline. -/
def specPipeline : Pipeline :=
  ⟨fun fs => .ok (load_documents_spec fs), create_vector_store_spec,
    create_agent_spec, create_session_spec⟩

/-- The allowed-types/size configuration the spec describes (JSON and CSV
accepted, some positive byte limit); concrete stand-in for
`app.core.config.settings`, which is not in src/. -/
def specSettings : Settings :=
  ⟨["json", "csv"], 10485760⟩

/-! ## Iterated session creation and concrete fixtures -/

/-- One `create_session` per (index, agent) pair, in some serial order;
since every mutation of the registry is atomic under the spec §5
mutual-exclusion contract, any concurrent execution of N `create_session`
calls is equivalent to such a serialization. -/
def createMany : SessionManagerState → List (VectorStore × Agent) →
    List String × SessionManagerState
  | st, [] => ([], st)
  | st, p :: ps =>
    ((create_session st p.1 p.2).1 ::
        (createMany (create_session st p.1 p.2).2 ps).1,
      (createMany (create_session st p.1 p.2).2 ps).2)

/-- Registry invariant: every registered id was produced by the generator
at some counter value already consumed.  Holds for the initial state and is
preserved by `create_session`. -/
def FreshIds (st : SessionManagerState) : Prop :=
  ∀ p ∈ st.sessions, ∃ k, k < st.counter ∧ p.1 = mkSessionId k

/-- A well-formed CSV upload with a header line and 5 data rows. -/
def csvFile5 : UploadFile :=
  ⟨"invoices.csv", .ok "invoice_id,amount\n1,100\n2,200\n3,300\n4,400\n5,500"⟩

/-- An empty JSON upload (no extractable content). -/
def emptyJsonFile : UploadFile := ⟨"empty.json", .ok ""⟩

/-- The five documents the spec-modelled loader extracts from `csvFile5`. -/
def csvDocs5 : List Document :=
  [⟨"invoices.csv", "1,100"⟩, ⟨"invoices.csv", "2,200"⟩,
   ⟨"invoices.csv", "3,300"⟩, ⟨"invoices.csv", "4,400"⟩,
   ⟨"invoices.csv", "5,500"⟩]

/-- A pipeline whose document-loading stage raises a generic internal
exception. -/
def failingLoadPipeline : Pipeline :=
  ⟨fun _ => .error (.otherError "boom"), create_vector_store_spec,
    create_agent_spec, create_session_spec⟩

/-- A pipeline whose document-loading stage raises a `ValueError`. -/
def valueErrorLoadPipeline : Pipeline :=
  ⟨fun _ => .error (.valueError "bad data"), create_vector_store_spec,
    create_agent_spec, create_session_spec⟩

/-- A pipeline whose vector-store construction raises a generic internal
exception (e.g. provider misconfiguration). -/
def failingVectorStorePipeline : Pipeline :=
  ⟨fun fs => .ok (load_documents_spec fs),
    fun _ => .error (.otherError "provider down"),
    create_agent_spec, create_session_spec⟩

/-- A pipeline whose document-loading stage succeeds but extracts zero
documents from every file. -/
def emptyLoadPipeline : Pipeline :=
  ⟨fun _ => .ok [], create_vector_store_spec, create_agent_spec,
    create_session_spec⟩

/-! ## Helper lemmas -/

theorem validateFile_error_status (st : Settings) (f : UploadFile)
    (e : HTTPError) (h : validateFile st f = .error e) : e.status_code = 400 := by
  unfold validateFile at h
  split at h
  · split at h
    · simp only [Except.error.injEq] at h; exact h ▸ rfl
    · split at h
      · simp only [Except.error.injEq] at h; exact h ▸ rfl
      · simp_all
  · simp only [Except.error.injEq] at h; exact h ▸ rfl

theorem validateFiles_error_status (st : Settings) :
    ∀ (files : List UploadFile) (e : HTTPError),
      validateFiles st files = .error e → e.status_code = 400 := by
  intro files
  induction files with
  | nil => intro e h; simp [validateFiles] at h
  | cons f fs ih =>
    intro e h
    unfold validateFiles at h
    split at h
    · exact validateFile_error_status st f e (by simp_all)
    · split at h
      · exact ih e (by simp_all)
      · simp_all

theorem validateFile_ok_extension (st : Settings) (f : UploadFile)
    (c : String × String) (h : validateFile st f = .ok c) :
    extensionAllowed st f.filename = true := by
  unfold validateFile at h
  split at h
  · assumption
  · simp_all

theorem validateFiles_error_of_bad_extension (st : Settings) :
    ∀ (files : List UploadFile) (f : UploadFile), f ∈ files →
      extensionAllowed st f.filename = false →
      ∃ e, validateFiles st files = .error e := by
  intro files
  induction files with
  | nil => intro f hf; cases hf
  | cons g gs ih =>
    intro f hf hext
    unfold validateFiles
    match hg : validateFile st g with
    | .error e => exact ⟨e, by simp⟩
    | .ok c =>
      rcases List.mem_cons.mp hf with rfl | hmem
      · rw [validateFile_ok_extension st f c hg] at hext; cases hext
      · obtain ⟨e, he⟩ := ih f hmem hext
        exact ⟨e, by simp [he]⟩

theorem validateFiles_error_append (st : Settings) :
    ∀ (pre : List UploadFile) (f : UploadFile) (rest : List UploadFile)
      (e : HTTPError),
      (∀ g ∈ pre, ∃ c, validateFile st g = .ok c) →
      validateFile st f = .error e →
      validateFiles st (pre ++ f :: rest) = .error e := by
  intro pre
  induction pre with
  | nil => intro f rest e _ hf; simp [validateFiles, hf]
  | cons g gs ih =>
    intro f rest e hpre hf
    obtain ⟨c, hc⟩ := hpre g (List.mem_cons_self g gs)
    have htail := ih f rest e (fun g' hg' => hpre g' (List.mem_cons_of_mem g hg')) hf
    simp only [List.cons_append]
    unfold validateFiles
    rw [hc, htail]

theorem upload_invoices_nil (st : Settings) (pl : Pipeline)
    (sm : SessionManagerState) :
    upload_invoices st pl sm [] = ⟨.error ⟨400, "No files provided"⟩, sm, []⟩ :=
  rfl

theorem upload_invoices_validate_error (st : Settings) (pl : Pipeline)
    (sm : SessionManagerState) (files : List UploadFile) (e : HTTPError)
    (hne : files.isEmpty = false) (hv : validateFiles st files = .error e) :
    upload_invoices st pl sm files = ⟨.error e, sm, []⟩ := by
  unfold upload_invoices
  rw [hne, hv]
  rfl

theorem upload_invoices_validate_ok (st : Settings) (pl : Pipeline)
    (sm : SessionManagerState) (files : List UploadFile)
    (pf : List (String × String))
    (hne : files.isEmpty = false) (hv : validateFiles st files = .ok pf) :
    upload_invoices st pl sm files = tryBlock pl sm pf := by
  unfold upload_invoices
  rw [hne, hv]
  rfl

/-- Exhaustive characterization of the `try` block: exactly one of the six
control paths is taken, and the resulting outcome is fully explicit. -/
theorem tryBlock_cases (pl : Pipeline) (sm : SessionManagerState)
    (pf : List (String × String)) :
    (∃ e, pl.load_documents_from_files pf = .error e ∧
      tryBlock pl sm pf = ⟨.error (handleExc e), sm, [.loadDocuments pf]⟩) ∨
    (∃ docs, pl.load_documents_from_files pf = .ok docs ∧
      docs.isEmpty = true ∧
      tryBlock pl sm pf =
        ⟨.error (handleExc (.httpException 400 noValidDocumentsDetail)), sm,
          [.loadDocuments pf]⟩) ∨
    (∃ docs e, pl.load_documents_from_files pf = .ok docs ∧
      docs.isEmpty = false ∧ pl.create_vector_store docs = .error e ∧
      tryBlock pl sm pf = ⟨.error (handleExc e), sm,
        [.loadDocuments pf, .createVectorStore docs]⟩) ∨
    (∃ docs vs e, pl.load_documents_from_files pf = .ok docs ∧
      docs.isEmpty = false ∧ pl.create_vector_store docs = .ok vs ∧
      pl.create_agent (mkRetriever vs) = .error e ∧
      tryBlock pl sm pf = ⟨.error (handleExc e), sm,
        [.loadDocuments pf, .createVectorStore docs,
          .createAgent (mkRetriever vs)]⟩) ∨
    (∃ docs vs a e, pl.load_documents_from_files pf = .ok docs ∧
      docs.isEmpty = false ∧ pl.create_vector_store docs = .ok vs ∧
      pl.create_agent (mkRetriever vs) = .ok a ∧
      pl.create_session sm vs a = .error e ∧
      tryBlock pl sm pf = ⟨.error (handleExc e), sm,
        [.loadDocuments pf, .createVectorStore docs,
          .createAgent (mkRetriever vs), .createSession vs a]⟩) ∨
    (∃ docs vs a sid sm', pl.load_documents_from_files pf = .ok docs ∧
      docs.isEmpty = false ∧ pl.create_vector_store docs = .ok vs ∧
      pl.create_agent (mkRetriever vs) = .ok a ∧
      pl.create_session sm vs a = .ok (sid, sm') ∧
      tryBlock pl sm pf = ⟨.ok ⟨sid, successMessage, pf.length⟩, sm',
        [.loadDocuments pf, .createVectorStore docs,
          .createAgent (mkRetriever vs), .createSession vs a]⟩) := by
  rcases hl : pl.load_documents_from_files pf with e | docs
  · exact Or.inl ⟨e, rfl, by simp [tryBlock, hl]⟩
  · cases hd : docs.isEmpty with
    | true =>
      exact Or.inr (Or.inl ⟨docs, rfl, hd, by simp [tryBlock, hl, hd]⟩)
    | false =>
      rcases hv : pl.create_vector_store docs with e | vs
      · exact Or.inr (Or.inr (Or.inl
          ⟨docs, e, rfl, hd, hv, by simp [tryBlock, hl, hd, hv]⟩))
      · rcases ha : pl.create_agent (mkRetriever vs) with e | a
        · exact Or.inr (Or.inr (Or.inr (Or.inl
            ⟨docs, vs, e, rfl, hd, hv, ha,
              by simp [tryBlock, hl, hd, hv, ha]⟩)))
        · rcases hs : pl.create_session sm vs a with e | r
          · exact Or.inr (Or.inr (Or.inr (Or.inr (Or.inl
              ⟨docs, vs, a, e, rfl, hd, hv, ha, hs,
                by simp [tryBlock, hl, hd, hv, ha, hs]⟩))))
          · exact Or.inr (Or.inr (Or.inr (Or.inr (Or.inr
              ⟨docs, vs, a, r.1, r.2, rfl, hd, hv, ha, by simp [hs],
                by simp [tryBlock, hl, hd, hv, ha, hs]⟩))))

/-! ## Claim theorems -/

/-- C8: uploading zero files fails immediately with the 400
"No files provided" error: no pipeline stage is invoked (empty trace) and
the session registry is untouched, so no session is created. -/
theorem upload_no_files_rejected (st : Settings) (pl : Pipeline)
    (sm : SessionManagerState) :
    upload_invoices st pl sm [] =
      ⟨.error ⟨400, "No files provided"⟩, sm, []⟩ := rfl

/-- C4 (evaluation at the failing input): when every uploaded file parses to
zero documents, the router raises the 400 NoExtractableContent
`HTTPException` inside the `try` block, but since `HTTPException` derives
from `Exception`, the blanket `except Exception` clause catches it and
re-raises a 500 "Internal server error"; the caller therefore observes a
500, not the 400 the code itself constructs.  Downstream, neither the
vector store nor the agent is built and no session is created. -/
theorem empty_documents_rewrapped_as_500 :
    upload_invoices specSettings emptyLoadPipeline .initial
        [⟨"a.json", .ok "x"⟩] =
      ⟨.error ⟨500, "Internal server error: 400: " ++ noValidDocumentsDetail⟩,
        .initial, [.loadDocuments [("a.json", "x")]]⟩ := by decide

/-- C2 (counterexample): a batch containing a file with an unrecognized
extension is rejected outright with a 400 error naming that file — the
upload fails on account of that file and the Document Loader is never even
invoked (empty trace), contradicting "yields zero documents for that file
and the overall upload does not fail on account of that file". -/
theorem unsupported_extension_rejects_batch :
    upload_invoices specSettings specPipeline .initial
        [⟨"a.txt", .ok "hi"⟩] =
      ⟨.error ⟨400, unsupportedFormatDetail specSettings "a.txt"⟩,
        .initial, []⟩ := by decide

/-- C2 (amended): a file whose extension is not among the allowed types
causes the entire upload to fail with an HTTP 400 error during validation:
the Document Loader is never invoked (empty trace, so it yields no
documents at all for the batch) and no session is registered. -/
theorem unsupported_extension_rejected_before_loader (st : Settings)
    (pl : Pipeline) (sm : SessionManagerState) (files : List UploadFile)
    (f : UploadFile) (hf : f ∈ files)
    (hext : extensionAllowed st f.filename = false) :
    (∃ e, (upload_invoices st pl sm files).response = .error e ∧
      e.status_code = 400) ∧
    (upload_invoices st pl sm files).state = sm ∧
    (upload_invoices st pl sm files).trace = [] := by
  obtain ⟨e, he⟩ := validateFiles_error_of_bad_extension st files f hf hext
  have hne : files.isEmpty = false := by
    cases files with
    | nil => cases hf
    | cons g gs => rfl
  have hstatus := validateFiles_error_status st files e he
  unfold upload_invoices
  rw [hne, he]
  exact ⟨⟨e, rfl, hstatus⟩, rfl, rfl⟩

/-- C2 (amended, witness): instantiation at a one-element batch holding a
`.txt` file. -/
theorem unsupported_extension_rejected_before_loader_witness :
    (∃ e, (upload_invoices specSettings specPipeline .initial
        [⟨"a.txt", .ok "hi"⟩]).response = .error e ∧ e.status_code = 400) ∧
    (upload_invoices specSettings specPipeline .initial
        [⟨"a.txt", .ok "hi"⟩]).state = .initial ∧
    (upload_invoices specSettings specPipeline .initial
        [⟨"a.txt", .ok "hi"⟩]).trace = [] :=
  unsupported_extension_rejected_before_loader specSettings specPipeline
    .initial [⟨"a.txt", .ok "hi"⟩] ⟨"a.txt", .ok "hi"⟩ (by decide) (by decide)

/-- C1: a session is registered only after document loading, vector-store
construction and agent construction have all succeeded.  First conjunct: on
any failing execution the registry is returned unchanged, so no observer
can resolve an id to a partially built session.  Second conjunct: whenever
`create_session` was invoked (it appears in the trace), validation and the
three prior stages had all succeeded, the loaded documents were nonempty,
and the invoked index and agent are exactly the successfully built ones. -/
theorem session_registered_only_on_success (st : Settings) (pl : Pipeline)
    (sm : SessionManagerState) (files : List UploadFile) :
    (∀ e, (upload_invoices st pl sm files).response = .error e →
      (upload_invoices st pl sm files).state = sm) ∧
    (∀ vs a, Stage.createSession vs a ∈ (upload_invoices st pl sm files).trace →
      ∃ pf docs, validateFiles st files = .ok pf ∧
        pl.load_documents_from_files pf = .ok docs ∧
        docs.isEmpty = false ∧
        pl.create_vector_store docs = .ok vs ∧
        pl.create_agent (mkRetriever vs) = .ok a) := by
  cases files with
  | nil =>
    rw [upload_invoices_nil]
    exact ⟨fun e _ => rfl, fun vs a h => by simp at h⟩
  | cons f fs =>
    rcases hv : validateFiles st (f :: fs) with e | pf
    · rw [upload_invoices_validate_error st pl sm (f :: fs) e rfl hv]
      exact ⟨fun e _ => rfl, fun vs a h => by simp at h⟩
    · rw [upload_invoices_validate_ok st pl sm (f :: fs) pf rfl hv]
      rcases tryBlock_cases pl sm pf with
          ⟨e, hl, heq⟩ | ⟨docs, hl, hd, heq⟩ | ⟨docs, e, hl, hd, hvv, heq⟩ |
          ⟨docs, vs0, e, hl, hd, hvv, ha, heq⟩ |
          ⟨docs, vs0, a0, e, hl, hd, hvv, ha, hs, heq⟩ |
          ⟨docs, vs0, a0, sid, sm', hl, hd, hvv, ha, hs, heq⟩
      · rw [heq]; exact ⟨fun e _ => rfl, fun vs a h => by simp at h⟩
      · rw [heq]; exact ⟨fun e _ => rfl, fun vs a h => by simp at h⟩
      · rw [heq]; exact ⟨fun e _ => rfl, fun vs a h => by simp at h⟩
      · rw [heq]; exact ⟨fun e _ => rfl, fun vs a h => by simp at h⟩
      · rw [heq]
        refine ⟨fun e _ => rfl, fun vs a h => ?_⟩
        simp only [List.mem_cons, List.not_mem_nil, or_false] at h
        rcases h with h | h | h | h
        · exact Stage.noConfusion h
        · exact Stage.noConfusion h
        · exact Stage.noConfusion h
        · obtain ⟨h1, h2⟩ := Stage.createSession.inj h
          subst h1; subst h2
          exact ⟨pf, docs, rfl, hl, hd, hvv, ha⟩
      · rw [heq]
        refine ⟨fun e he => absurd he (by simp), fun vs a h => ?_⟩
        simp only [List.mem_cons, List.not_mem_nil, or_false] at h
        rcases h with h | h | h | h
        · exact Stage.noConfusion h
        · exact Stage.noConfusion h
        · exact Stage.noConfusion h
        · obtain ⟨h1, h2⟩ := Stage.createSession.inj h
          subst h1; subst h2
          exact ⟨pf, docs, rfl, hl, hd, hvv, ha⟩

/-- C1 (witness): with a pipeline whose loading stage raises, the registry
comes back unchanged. -/
theorem session_registered_only_on_success_witness :
    (upload_invoices specSettings failingLoadPipeline .initial
      [⟨"a.json", .ok "x"⟩]).state = .initial :=
  (session_registered_only_on_success specSettings failingLoadPipeline
      .initial [⟨"a.json", .ok "x"⟩]).1
    ⟨500, "Internal server error: boom"⟩ (by decide)

/-- C7: every retriever ever handed to the agent-construction stage was
built with the hard-coded retrieval width k = 3; since this holds for every
settings object, pipeline, registry state and request, k is not
configurable per request or per session. -/
theorem retriever_k_fixed_three (st : Settings) (pl : Pipeline)
    (sm : SessionManagerState) (files : List UploadFile) (r : Retriever)
    (h : Stage.createAgent r ∈ (upload_invoices st pl sm files).trace) :
    r.k = 3 := by
  cases files with
  | nil => rw [upload_invoices_nil] at h; simp at h
  | cons f fs =>
    rcases hv : validateFiles st (f :: fs) with e | pf
    · rw [upload_invoices_validate_error st pl sm (f :: fs) e rfl hv] at h
      simp at h
    · rw [upload_invoices_validate_ok st pl sm (f :: fs) pf rfl hv] at h
      rcases tryBlock_cases pl sm pf with
          ⟨e, hl, heq⟩ | ⟨docs, hl, hd, heq⟩ | ⟨docs, e, hl, hd, hvv, heq⟩ |
          ⟨docs, vs0, e, hl, hd, hvv, ha, heq⟩ |
          ⟨docs, vs0, a0, e, hl, hd, hvv, ha, hs, heq⟩ |
          ⟨docs, vs0, a0, sid, sm', hl, hd, hvv, ha, hs, heq⟩ <;>
        rw [heq] at h <;>
        simp only [List.mem_cons, List.not_mem_nil, or_false] at h <;>
        simp_all [mkRetriever]

/-- C7 (witness): instantiation at a successful concrete upload. -/
theorem retriever_k_fixed_three_witness :
    (Retriever.mk ⟨[⟨"a.json", "x"⟩]⟩ 3).k = 3 :=
  retriever_k_fixed_three specSettings specPipeline .initial
    [⟨"a.json", .ok "x"⟩] (Retriever.mk ⟨[⟨"a.json", "x"⟩]⟩ 3) (by decide)

/-- C3: when index construction (`create_vector_store`) or agent
construction (`create_agent`) fails with an internal error — any raised
exception other than a `ValueError`, which this codebase reserves for
user-correctable conditions — the request fails with an HTTP 500, never a
400-class error. -/
theorem internal_build_error_yields_500 (st : Settings) (pl : Pipeline)
    (sm : SessionManagerState) (files : List UploadFile)
    (pf : List (String × String)) (docs : List Document) (e : Exc)
    (hne : files.isEmpty = false)
    (hval : validateFiles st files = .ok pf)
    (hload : pl.load_documents_from_files pf = .ok docs)
    (hdocs : docs.isEmpty = false)
    (hnotval : ∀ m, e ≠ .valueError m)
    (hfail : pl.create_vector_store docs = .error e ∨
      ∃ vs, pl.create_vector_store docs = .ok vs ∧
        pl.create_agent (mkRetriever vs) = .error e) :
    ∃ d, (upload_invoices st pl sm files).response = .error ⟨500, d⟩ := by
  have h500 : handleExc e = ⟨500, "Internal server error: " ++ e.str⟩ := by
    cases e with
    | valueError m => exact absurd rfl (hnotval m)
    | httpException s d => rfl
    | otherError m => rfl
  rw [upload_invoices_validate_ok st pl sm files pf hne hval]
  have hresp : (tryBlock pl sm pf).response = .error (handleExc e) := by
    rcases hfail with hv | ⟨vs, hv, ha⟩
    · simp [tryBlock, hload, hdocs, hv]
    · simp [tryBlock, hload, hdocs, hv, ha]
  exact ⟨"Internal server error: " ++ e.str, by rw [hresp, h500]⟩

/-- C3 (witness): a pipeline whose vector-store construction raises a
generic exception produces a 500. -/
theorem internal_build_error_yields_500_witness :
    ∃ d, (upload_invoices specSettings failingVectorStorePipeline .initial
      [⟨"a.json", .ok "x"⟩]).response = .error ⟨500, d⟩ :=
  internal_build_error_yields_500 specSettings failingVectorStorePipeline
    .initial [⟨"a.json", .ok "x"⟩] [("a.json", "x")] [⟨"a.json", "x"⟩]
    (.otherError "provider down") rfl (by decide) (by decide) (by decide)
    (fun m h => Exc.noConfusion h) (Or.inl (by decide))

/-- C9: whichever pipeline stage (document loading, vector-store
construction, agent construction, or session creation) is the first to
raise, a `ValueError` is reported as a 400 carrying the exception's
message, and any other non-`HTTPException` exception is reported as a 500
"Internal server error". -/
theorem stage_exception_mapped_by_type (st : Settings) (pl : Pipeline)
    (sm : SessionManagerState) (files : List UploadFile)
    (pf : List (String × String)) (e : Exc)
    (hne : files.isEmpty = false)
    (hval : validateFiles st files = .ok pf)
    (hfail : pl.load_documents_from_files pf = .error e ∨
      ∃ docs, pl.load_documents_from_files pf = .ok docs ∧
        docs.isEmpty = false ∧
        (pl.create_vector_store docs = .error e ∨
          ∃ vs, pl.create_vector_store docs = .ok vs ∧
            (pl.create_agent (mkRetriever vs) = .error e ∨
              ∃ a, pl.create_agent (mkRetriever vs) = .ok a ∧
                pl.create_session sm vs a = .error e))) :
    (∀ m, e = .valueError m →
      (upload_invoices st pl sm files).response = .error ⟨400, m⟩) ∧
    (∀ m, e = .otherError m →
      (upload_invoices st pl sm files).response =
        .error ⟨500, "Internal server error: " ++ m⟩) := by
  have hresp : (upload_invoices st pl sm files).response =
      .error (handleExc e) := by
    rw [upload_invoices_validate_ok st pl sm files pf hne hval]
    rcases hfail with hl | ⟨docs, hl, hd, hv | ⟨vs, hv, ha | ⟨a, ha, hs⟩⟩⟩
    · simp [tryBlock, hl]
    · simp [tryBlock, hl, hd, hv]
    · simp [tryBlock, hl, hd, hv, ha]
    · simp [tryBlock, hl, hd, hv, ha, hs]
  exact ⟨fun m hm => by rw [hresp, hm]; rfl,
    fun m hm => by rw [hresp, hm]; rfl⟩

/-- C9 (witness): a `ValueError` raised by the loading stage surfaces as a
400 carrying its message. -/
theorem stage_exception_mapped_by_type_witness :
    (upload_invoices specSettings valueErrorLoadPipeline .initial
      [⟨"a.json", .ok "x"⟩]).response = .error ⟨400, "bad data"⟩ :=
  (stage_exception_mapped_by_type specSettings valueErrorLoadPipeline
    .initial [⟨"a.json", .ok "x"⟩] [("a.json", "x")] (.valueError "bad data")
    rfl (by decide) (Or.inl rfl)).1 "bad data" rfl

/-- C10: if reading one file's bytes raises — or the size limit trips, a
violation raised and re-wrapped inside the same read block — the whole
upload is aborted with a 400 whose detail names that file; the outcome
(including the untouched registry and empty stage trace) is the same
whatever files follow, so the failing file is not skipped and no
subsequent file is processed. -/
theorem read_failure_aborts_batch (st : Settings) (pl : Pipeline)
    (sm : SessionManagerState) (pre : List UploadFile) (f : UploadFile)
    (hpre : ∀ g ∈ pre, ∃ c, validateFile st g = .ok c)
    (hext : extensionAllowed st f.filename = true)
    (hbad : (∃ m, f.readResult = .error m) ∨
      (∃ c, f.readResult = .ok c ∧ c.length > st.max_file_size)) :
    ∃ s, ∀ rest : List UploadFile,
      upload_invoices st pl sm (pre ++ f :: rest) =
        ⟨.error ⟨400, readErrorDetail f.filename s⟩, sm, []⟩ := by
  have hvf : ∃ s, validateFile st f =
      .error ⟨400, readErrorDetail f.filename s⟩ := by
    rcases hbad with ⟨m, hm⟩ | ⟨c, hc, hlen⟩
    · exact ⟨m, by simp [validateFile, hext, hm]⟩
    · exact ⟨Exc.str (.httpException 400 (oversizeDetail st f.filename)),
        by simp [validateFile, hext, hc, hlen]⟩
  obtain ⟨s, hs⟩ := hvf
  refine ⟨s, fun rest => ?_⟩
  have hval := validateFiles_error_append st pre f rest
    ⟨400, readErrorDetail f.filename s⟩ hpre hs
  have hne : (pre ++ f :: rest).isEmpty = false := by
    cases pre <;> rfl
  exact upload_invoices_validate_error st pl sm (pre ++ f :: rest)
    ⟨400, readErrorDetail f.filename s⟩ hne hval

/-- C10 (witness): a single file whose read raises aborts the upload with a
400 naming it, independently of any following files. -/
theorem read_failure_aborts_batch_witness :
    ∃ s, ∀ rest : List UploadFile,
      upload_invoices specSettings specPipeline .initial
          ([] ++ ⟨"bad.json", .error "disk error"⟩ :: rest) =
        ⟨.error ⟨400, readErrorDetail "bad.json" s⟩, .initial, []⟩ :=
  read_failure_aborts_batch specSettings specPipeline .initial []
    ⟨"bad.json", .error "disk error"⟩
    (fun g hg => absurd hg (List.not_mem_nil g))
    (by decide) (Or.inl ⟨"disk error", rfl⟩)

/-- C6: uploading one well-formed CSV with 5 rows plus one empty JSON file
succeeds, creates exactly one session, reports `files_processed = 2` (files
attempted), and the single session's index holds exactly the 5 documents
extracted from the CSV — nothing from the JSON file. -/
theorem csv_and_empty_json_single_session :
    (upload_invoices specSettings specPipeline .initial
        [csvFile5, emptyJsonFile]).response =
      .ok ⟨mkSessionId 0, successMessage, 2⟩ ∧
    (upload_invoices specSettings specPipeline .initial
        [csvFile5, emptyJsonFile]).state.sessions.length = 1 ∧
    get_session (upload_invoices specSettings specPipeline .initial
        [csvFile5, emptyJsonFile]).state (mkSessionId 0) =
      some ⟨mkSessionId 0, ⟨csvDocs5⟩, ⟨mkRetriever ⟨csvDocs5⟩⟩⟩ ∧
    csvDocs5.length = 5 ∧
    ∀ d ∈ csvDocs5, d.source_filename = "invoices.csv" := by decide

theorem mkSessionId_length (n : Nat) : (mkSessionId n).length = n + 1 := by
  simp [mkSessionId, String.length_mk, List.length_replicate]

theorem mkSessionId_injective {m n : Nat}
    (h : mkSessionId m = mkSessionId n) : m = n := by
  have hlen := congrArg String.length h
  simpa [mkSessionId_length] using hlen

/-- Induction workhorse for the session manager: starting from any registry
whose ids all come from already-consumed counter values, a run of
`create_session` calls preserves that invariant, only grows the counter,
leaves every previously issued id resolving exactly as before, issues only
ids at fresh counter values, returns pairwise-distinct ids — one per
requested pair — and leaves each returned id resolving to its own
session. -/
theorem createMany_invariants (pairs : List (VectorStore × Agent)) :
    ∀ st : SessionManagerState, FreshIds st →
      FreshIds (createMany st pairs).2 ∧
      st.counter ≤ (createMany st pairs).2.counter ∧
      (∀ k, k < st.counter →
        get_session (createMany st pairs).2 (mkSessionId k) =
          get_session st (mkSessionId k)) ∧
      (∀ sid ∈ (createMany st pairs).1,
        ∃ k, st.counter ≤ k ∧ sid = mkSessionId k) ∧
      (createMany st pairs).1.Nodup ∧
      (createMany st pairs).1.length = pairs.length ∧
      (∀ q ∈ (createMany st pairs).1.zip pairs,
        get_session (createMany st pairs).2 q.1 = some ⟨q.1, q.2.1, q.2.2⟩) := by
  induction pairs with
  | nil =>
    intro st hst
    refine ⟨hst, Nat.le_refl _, fun k _ => rfl, ?_, List.nodup_nil, rfl, ?_⟩
    · intro sid hsid
      exact absurd hsid (List.not_mem_nil sid)
    · intro q hq
      exact absurd hq (List.not_mem_nil q)
  | cons p ps ih =>
    intro st hst
    have hst1 : FreshIds (create_session st p.1 p.2).2 := by
      intro q hq
      rcases List.mem_cons.mp hq with rfl | hq'
      · exact ⟨st.counter, Nat.lt_succ_self _, rfl⟩
      · obtain ⟨k, hk, hkeq⟩ := hst q hq'
        exact ⟨k, Nat.lt_succ_of_lt hk, hkeq⟩
    obtain ⟨ih1, ih2, ih3, ih4, ih5, ih6, ih7⟩ :=
      ih (create_session st p.1 p.2).2 hst1
    refine ⟨ih1, Nat.le_trans (Nat.le_succ _) ih2, ?_, ?_, ?_, ?_, ?_⟩
    · intro k hk
      refine Eq.trans (ih3 k (Nat.lt_succ_of_lt hk)) ?_
      show get_session (create_session st p.1 p.2).2 (mkSessionId k) =
        get_session st (mkSessionId k)
      unfold get_session
      rw [show (create_session st p.1 p.2).2.sessions =
        (mkSessionId st.counter,
          ⟨mkSessionId st.counter, p.1, p.2⟩) :: st.sessions from rfl]
      rw [List.find?_cons_of_neg]
      intro hbeq
      have heq := mkSessionId_injective (eq_of_beq hbeq)
      omega
    · intro sid hsid
      rcases List.mem_cons.mp hsid with rfl | hmem
      · exact ⟨st.counter, Nat.le_refl _, rfl⟩
      · obtain ⟨k, hk, hkeq⟩ := ih4 sid hmem
        have hk' : st.counter + 1 ≤ k := hk
        exact ⟨k, Nat.le_of_succ_le hk', hkeq⟩
    · refine List.nodup_cons.mpr ⟨?_, ih5⟩
      intro hmem
      obtain ⟨k, hk, hkeq⟩ := ih4 _ hmem
      have hk' : st.counter + 1 ≤ k := hk
      have heq : st.counter = k := mkSessionId_injective hkeq
      omega
    · show ((create_session st p.1 p.2).1 ::
          (createMany (create_session st p.1 p.2).2 ps).1).length =
        (p :: ps).length
      rw [List.length_cons, ih6]
      rfl
    · intro q hq
      have hq' : q ∈ ((create_session st p.1 p.2).1, p) ::
          ((createMany (create_session st p.1 p.2).2 ps).1.zip ps) := hq
      rcases List.mem_cons.mp hq' with rfl | hmem
      · refine Eq.trans (ih3 st.counter (Nat.lt_succ_self _)) ?_
        show get_session (create_session st p.1 p.2).2
            (mkSessionId st.counter) =
          some ⟨mkSessionId st.counter, p.1, p.2⟩
        unfold get_session
        rw [show (create_session st p.1 p.2).2.sessions =
          (mkSessionId st.counter,
            ⟨mkSessionId st.counter, p.1, p.2⟩) :: st.sessions from rfl]
        have hpos : (fun q : String × Session =>
            q.1 == mkSessionId st.counter)
            (mkSessionId st.counter,
              ⟨mkSessionId st.counter, p.1, p.2⟩) = true :=
          beq_self_eq_true _
        rw [List.find?_cons_of_pos st.sessions hpos]
        rfl
      · exact ih7 q hmem

/-- C5: running N `create_session` calls from any registry satisfying the
freshness invariant — in particular the initial empty one — under the
atomic-insert serialization of spec §5, yields N pairwise-distinct session
ids, one per call, and afterwards every returned id independently resolves
via `get_session` to exactly the session created for it: no insert is
lost. -/
theorem create_session_distinct_and_retrievable (st : SessionManagerState)
    (pairs : List (VectorStore × Agent)) (h : FreshIds st) :
    (createMany st pairs).1.Nodup ∧
    (createMany st pairs).1.length = pairs.length ∧
    ∀ q ∈ (createMany st pairs).1.zip pairs,
      get_session (createMany st pairs).2 q.1 = some ⟨q.1, q.2.1, q.2.2⟩ := by
  obtain ⟨-, -, -, -, h5, h6, h7⟩ := createMany_invariants pairs st h
  exact ⟨h5, h6, h7⟩

/-- C5 (witness): two sessions created back to back from the empty registry
get distinct ids, each resolving to its own session. -/
theorem create_session_distinct_and_retrievable_witness :
    (createMany .initial
        [(⟨[⟨"a", "x"⟩]⟩, ⟨mkRetriever ⟨[⟨"a", "x"⟩]⟩⟩),
         (⟨[⟨"b", "y"⟩]⟩, ⟨mkRetriever ⟨[⟨"b", "y"⟩]⟩⟩)]).1.Nodup ∧
    (createMany .initial
        [(⟨[⟨"a", "x"⟩]⟩, ⟨mkRetriever ⟨[⟨"a", "x"⟩]⟩⟩),
         (⟨[⟨"b", "y"⟩]⟩, ⟨mkRetriever ⟨[⟨"b", "y"⟩]⟩⟩)]).1.length = 2 ∧
    ∀ q ∈ (createMany .initial
        [(⟨[⟨"a", "x"⟩]⟩, ⟨mkRetriever ⟨[⟨"a", "x"⟩]⟩⟩),
         (⟨[⟨"b", "y"⟩]⟩, ⟨mkRetriever ⟨[⟨"b", "y"⟩]⟩⟩)]).1.zip
          [(⟨[⟨"a", "x"⟩]⟩, ⟨mkRetriever ⟨[⟨"a", "x"⟩]⟩⟩),
           (⟨[⟨"b", "y"⟩]⟩, ⟨mkRetriever ⟨[⟨"b", "y"⟩]⟩⟩)],
      get_session (createMany .initial
        [(⟨[⟨"a", "x"⟩]⟩, ⟨mkRetriever ⟨[⟨"a", "x"⟩]⟩⟩),
         (⟨[⟨"b", "y"⟩]⟩, ⟨mkRetriever ⟨[⟨"b", "y"⟩]⟩⟩)]).2 q.1 =
        some ⟨q.1, q.2.1, q.2.2⟩ :=
  create_session_distinct_and_retrievable .initial
    [(⟨[⟨"a", "x"⟩]⟩, ⟨mkRetriever ⟨[⟨"a", "x"⟩]⟩⟩),
     (⟨[⟨"b", "y"⟩]⟩, ⟨mkRetriever ⟨[⟨"b", "y"⟩]⟩⟩)]
    (fun q hq => absurd hq (List.not_mem_nil q))

end InvoiceChatBot
